import Mathlib

/-!
Verification development for the marketing-analytics dashboard backend
(`api/models.py`, `api/storage.py`, `api/google_analytics.py`, `api/main.py`).

The Python code is shallowly embedded:
* `datetime` values are modelled as `Nat` instants supplied by the caller
  (the clock value of `datetime.now()` at the call).
* Python strings are modelled as Lean `String`s over their ASCII fragment;
  `str.isdigit` becomes "non-empty and every character an ASCII digit".
* Fallible operations (Python exceptions) return `Option`/`Except`.
* `uuid.uuid4()` is modelled as a collision-free identifier supply drawn
  from a per-store counter (`genId`); the property of uuid4 the code relies
  on is exactly collision-freeness.
-/

/-! ## Python string primitives used by `_parse_analytics_response` -/

/-- Python `s.isdigit()` on ASCII strings: non-empty and all characters digits. -/
def pyIsDigit (s : String) : Bool :=
  !s.isEmpty && s.data.all Char.isDigit

/-- Python `s.replace('.', '')`: removes every dot. -/
def stripDots (s : String) : String :=
  String.mk (s.data.filter (fun c => c != '.'))

/-- Number of dot characters in `s`. -/
def countDots (s : String) : Nat :=
  s.data.countP (fun c => c == '.')

/-- Numeric value of a list of ASCII digit characters (most significant first). -/
def natOfDigits (cs : List Char) : Nat :=
  cs.foldl (fun a c => a * 10 + (c.toNat - 48)) 0

/-- Python `int(s) if s.isdigit() else 0` (line 175-177 of google_analytics.py). -/
def parseIntPy (s : String) : Nat :=
  if pyIsDigit s then natOfDigits s.data else 0

/-- Python `float(s)` restricted to strings of digits and dots: succeeds with
the exact decimal value when `s` has at most one dot, raises `ValueError`
(`none`) otherwise. -/
def pyFloat (s : String) : Option Rat :=
  if countDots s = 0 then some (mkRat (natOfDigits s.data) 1)
  else if countDots s = 1 then
    let ip := s.data.takeWhile (fun c => c != '.')
    let fp := (s.data.dropWhile (fun c => c != '.')).drop 1
    some (mkRat (natOfDigits ip * 10 ^ fp.length + natOfDigits fp) (10 ^ fp.length))
  else none

/-- Python `float(s) if s.replace('.', '').isdigit() else 0`
(lines 178-179 of google_analytics.py); `none` models a raised `ValueError`. -/
def parseDecimalPy (s : String) : Option Rat :=
  if pyIsDigit (stripDots s) then pyFloat s else some 0

/-! ## Google Analytics response model -/

/-- One row of a report: `row["dimensions"]` (defaulting to `[]` when absent)
and `row["metrics"]`, kept optional because the code indexes `[0]` into it
(`row.get("metrics", [{}])[0]`): an absent key defaults to `[{}]` whose first
entry has no values, while a present empty list raises `IndexError`.
Each metrics entry is its `"values"` list (`.get("values", [])`). -/
structure GARow where
  dimensions : List String
  metrics : Option (List (List String))
deriving DecidableEq

/-- A report: `report.get("data", {}).get("rows", [])` collapsed through its
defaults to the row list. -/
structure GAReport where
  rows : List GARow
deriving DecidableEq

/-- The upstream response body: its `"reports"` list (default `[]`). -/
structure AnalyticsResponse where
  reports : List GAReport
deriving DecidableEq

/-- One reshaped per-campaign record. -/
structure CampaignEntry where
  name : String
  source : String
  medium : String
  sessions : Nat
  users : Nat
  pageviews : Nat
  bounce_rate : Rat
  avg_session_duration : Rat
deriving DecidableEq

/-- The reshaped result: campaign list plus the `total_metrics` map, which is
either empty (`none`) or carries the three totals
(sessions, users, pageviews). -/
structure ParsedAnalytics where
  campaigns : List CampaignEntry
  total_metrics : Option (Nat × Nat × Nat)
deriving DecidableEq

/-- `row.get("metrics", [{}])[0].get("values", [])`: `none` models the
`IndexError` raised when the row carries an explicitly empty metrics list. -/
def rowValues (r : GARow) : Option (List String) :=
  match r.metrics with
  | none => some []
  | some [] => none
  | some (v :: _) => some v

/-- Processing of one row (loop body, lines 166-194): `none` is a raised
exception, `some none` a skipped row, `some (some e)` an included record. -/
def processRow (r : GARow) : Option (Option CampaignEntry) :=
  match rowValues r with
  | none => none
  | some ms =>
    if 3 ≤ r.dimensions.length ∧ 5 ≤ ms.length then
      match parseDecimalPy (ms.getD 3 ""), parseDecimalPy (ms.getD 4 "") with
      | some br, some ad =>
        some (some {
          name := r.dimensions.getD 2 ""
          source := r.dimensions.getD 0 ""
          medium := r.dimensions.getD 1 ""
          sessions := parseIntPy (ms.getD 0 "")
          users := parseIntPy (ms.getD 1 "")
          pageviews := parseIntPy (ms.getD 2 "")
          bounce_rate := br
          avg_session_duration := ad })
      | _, _ => none
    else some none

/-- The row loop with its three accumulators
(`total_sessions`, `total_users`, `total_pageviews`). -/
def processRows : List GARow → Option (List CampaignEntry × (Nat × Nat × Nat))
  | [] => some ([], (0, 0, 0))
  | r :: rs =>
    match processRow r with
    | none => none
    | some none => processRows rs
    | some (some e) =>
      match processRows rs with
      | none => none
      | some (l, (s, u, p)) =>
        some (e :: l, (e.sessions + s, e.users + u, e.pageviews + p))

/-- `GoogleAnalyticsService._parse_analytics_response` (lines 152-203):
an empty reports list short-circuits to empty campaigns and an empty totals
map; otherwise only the first report is processed and the totals map carries
the three accumulated fields. `none` models a raised exception. -/
def parse_analytics_response (resp : AnalyticsResponse) : Option ParsedAnalytics :=
  match resp.reports with
  | [] => some ⟨[], none⟩
  | report :: _ =>
    match processRows report.rows with
    | none => none
    | some (l, t) => some ⟨l, some t⟩

/-! ## Declarative row characterisation (for the reshaping claims) -/

/-- The first metrics entry's value list, as the code reads it when no
exception occurs. -/
def firstValues (r : GARow) : List String :=
  match r.metrics with
  | none => []
  | some l => l.headD []

/-- The inclusion threshold: at least 3 dimensions and 5 metric values. -/
def includedRow (r : GARow) : Bool :=
  decide (3 ≤ r.dimensions.length) && decide (5 ≤ (firstValues r).length)

/-- The campaign record a qualifying row contributes, fields taken from
dimension positions 0-2 and metric positions 0-4. -/
def rowEntry (r : GARow) : Option CampaignEntry :=
  if includedRow r then
    some {
      name := r.dimensions.getD 2 ""
      source := r.dimensions.getD 0 ""
      medium := r.dimensions.getD 1 ""
      sessions := parseIntPy ((firstValues r).getD 0 "")
      users := parseIntPy ((firstValues r).getD 1 "")
      pageviews := parseIntPy ((firstValues r).getD 2 "")
      bounce_rate := (parseDecimalPy ((firstValues r).getD 3 "")).getD 0
      avg_session_duration := (parseDecimalPy ((firstValues r).getD 4 "")).getD 0 }
  else none

/-- A decimal metric string that does not raise: either it fails the digit
check (and defaults to 0) or it has at most one dot. -/
def noCrashDecimal (s : String) : Bool :=
  !(pyIsDigit (stripDots s)) || decide (countDots s ≤ 1)

/-- A row the loop body survives: no `IndexError` from an empty metrics list,
and when the row qualifies, neither decimal parse raises. -/
def rowOk (r : GARow) : Bool :=
  (match r.metrics with | some [] => false | _ => true) &&
  (!(includedRow r) ||
    (noCrashDecimal ((firstValues r).getD 3 "") &&
     noCrashDecimal ((firstValues r).getD 4 "")))

/-! ## Entity model (`api/models.py`) -/

/-- `CampaignStatus` (models.py lines 6-10). -/
inductive CampaignStatus
  | active
  | paused
  | completed
  | draft
deriving DecidableEq

/-- `IntegrationStatus` (models.py lines 12-15). -/
inductive IntegrationStatus
  | connected
  | disconnected
  | error
deriving DecidableEq

/-- `Campaign` (models.py lines 17-27); timestamps are `Nat` instants. -/
structure Campaign where
  id : Option String
  name : String
  type : String
  platform : String
  impressions : Int
  clicks : Int
  spend : String
  status : CampaignStatus
  created_at : Option Nat
  updated_at : Option Nat
deriving DecidableEq

/-- `Integration` (models.py lines 47-54). -/
structure Integration where
  id : Option String
  platform : String
  status : IntegrationStatus
  api_key : Option String
  account_id : Option String
  last_sync : Option Nat
  created_at : Option Nat
deriving DecidableEq

/-- The `spend` pattern `^\d+(\.\d\x7b1,2\x7d)?$`: one or more digits, then
optionally a dot followed by one or two digits. -/
def spendOk (s : String) : Bool :=
  let cs := s.data
  let ip := cs.takeWhile Char.isDigit
  let rest := cs.dropWhile Char.isDigit
  !ip.isEmpty &&
    (rest.isEmpty ||
      (rest.headD ' ' == '.' &&
       (rest.length == 2 || rest.length == 3) &&
       (rest.drop 1).all Char.isDigit))

/-- Pydantic validation of a `Campaign` as declared in models.py lines 17-27:
name length 1..200, non-empty type and platform, non-negative counters,
`spend` matching the currency pattern (the status enum holds by construction). -/
def validCampaign (c : Campaign) : Bool :=
  decide (1 ≤ c.name.length) && decide (c.name.length ≤ 200) &&
  decide (1 ≤ c.type.length) && decide (1 ≤ c.platform.length) &&
  decide (0 ≤ c.impressions) && decide (0 ≤ c.clicks) &&
  spendOk c.spend

/-! ## Storage engine (`api/storage.py`) -/

/-- The id `uuid.uuid4()` yields at counter value `n`, modelled as a
collision-free supply: distinct counter values give distinct ids, and no
generated id collides with the seeded ids "1", "2", "3". -/
def genId (n : Nat) : String :=
  "uuid-" ++ String.mk (List.replicate n 'u')

/-- A patch dictionary for `update_campaign`: `some v` means the key is
present with value `v`. Keys that are not `Campaign` attributes are dropped
by the `hasattr` guard (storage.py line 212), so they are not modelled. -/
structure CampaignPatch where
  id : Option (Option String) := none
  name : Option String := none
  type : Option String := none
  platform : Option String := none
  impressions : Option Int := none
  clicks : Option Int := none
  spend : Option String := none
  status : Option CampaignStatus := none
  created_at : Option (Option Nat) := none
  updated_at : Option (Option Nat) := none
deriving DecidableEq

/-- A patch dictionary for `update_integration`. -/
structure IntegrationPatch where
  id : Option (Option String) := none
  platform : Option String := none
  status : Option IntegrationStatus := none
  api_key : Option (Option String) := none
  account_id : Option (Option String) := none
  last_sync : Option (Option Nat) := none
  created_at : Option (Option Nat) := none
deriving DecidableEq

/-- The `setattr` loop of storage.py lines 211-213: every key present in the
patch overwrites the corresponding attribute; absent keys leave it unchanged.
No validation runs. -/
def setFields (c : Campaign) (p : CampaignPatch) : Campaign :=
  { id := p.id.getD c.id
    name := p.name.getD c.name
    type := p.type.getD c.type
    platform := p.platform.getD c.platform
    impressions := p.impressions.getD c.impressions
    clicks := p.clicks.getD c.clicks
    spend := p.spend.getD c.spend
    status := p.status.getD c.status
    created_at := p.created_at.getD c.created_at
    updated_at := p.updated_at.getD c.updated_at }

/-- The `setattr` loop of storage.py lines 251-253 for integrations. -/
def setFieldsI (i : Integration) (p : IntegrationPatch) : Integration :=
  { id := p.id.getD i.id
    platform := p.platform.getD i.platform
    status := p.status.getD i.status
    api_key := p.api_key.getD i.api_key
    account_id := p.account_id.getD i.account_id
    last_sync := p.last_sync.getD i.last_sync
    created_at := p.created_at.getD i.created_at }

/-- `MemoryStorage.update_campaign` (storage.py lines 207-217): scan for the
first record whose id equals `cid`, apply the patch, stamp `updated_at` with
the current instant, write the record back in place; raise `ValueError` when
no record matches. Returns the resulting collection and the outcome. -/
def update_campaign (l : List Campaign) (cid : String) (p : CampaignPatch)
    (now : Nat) : List Campaign × Except String Campaign :=
  match l with
  | [] => ([], Except.error ("Campaign with id " ++ cid ++ " not found"))
  | c :: rest =>
    if c.id = some cid then
      let c' := { setFields c p with updated_at := some now }
      (c' :: rest, Except.ok c')
    else
      let r := update_campaign rest cid p now
      (c :: r.1, r.2)

/-- `MemoryStorage.update_integration` (storage.py lines 247-258): as for
campaigns, but when the patch carries `status = "connected"` the record's
`last_sync` is stamped with the current instant after the field loop. -/
def update_integration (l : List Integration) (iid : String)
    (p : IntegrationPatch) (now : Nat) :
    List Integration × Except String Integration :=
  match l with
  | [] => ([], Except.error ("Integration with id " ++ iid ++ " not found"))
  | i :: rest =>
    if i.id = some iid then
      let i1 := setFieldsI i p
      let i2 := if p.status = some IntegrationStatus.connected then
          { i1 with last_sync := some now } else i1
      (i2 :: rest, Except.ok i2)
    else
      let r := update_integration rest iid p now
      (i :: r.1, r.2)

/-- `MemoryStorage.delete_campaign` (storage.py lines 219-224): delete the
first record whose id matches and report `true`; report `false` otherwise. -/
def delete_campaign (l : List Campaign) (cid : String) : Bool × List Campaign :=
  match l with
  | [] => (false, [])
  | c :: rest =>
    if c.id = some cid then (true, rest)
    else
      let r := delete_campaign rest cid
      (r.1, c :: r.2)

/-- `MemoryStorage.delete_integration` (storage.py lines 260-265). -/
def delete_integration (l : List Integration) (iid : String) :
    Bool × List Integration :=
  match l with
  | [] => (false, [])
  | i :: rest =>
    if i.id = some iid then (true, rest)
    else
      let r := delete_integration rest iid
      (r.1, i :: r.2)

/-- The mutable store: its campaign and integration collections plus the
counter indexing the uuid supply. -/
structure MemoryStorage where
  campaigns : List Campaign
  integrations : List Integration
  nextId : Nat
deriving DecidableEq

/-- `MemoryStorage.get_campaigns` (storage.py lines 188-189). -/
def get_campaigns (s : MemoryStorage) : List Campaign :=
  s.campaigns

/-- `MemoryStorage.get_integrations` (storage.py lines 232-233). -/
def get_integrations (s : MemoryStorage) : List Integration :=
  s.integrations

/-- `MemoryStorage.create_campaign` (storage.py lines 191-205): rebuild the
record with a fresh uuid, fresh `created_at` and `updated_at`, append it,
return it. -/
def create_campaign (s : MemoryStorage) (c : Campaign) (now : Nat) :
    MemoryStorage × Campaign :=
  let c' : Campaign :=
    { id := some (genId s.nextId)
      name := c.name
      type := c.type
      platform := c.platform
      impressions := c.impressions
      clicks := c.clicks
      spend := c.spend
      status := c.status
      created_at := some now
      updated_at := some now }
  ({ s with campaigns := s.campaigns ++ [c'], nextId := s.nextId + 1 }, c')

/-- `MemoryStorage.create_integration` (storage.py lines 235-245): rebuild the
record with a fresh uuid and `created_at`; `last_sync` is never forwarded, so
it takes its declared default `None`. -/
def create_integration (s : MemoryStorage) (i : Integration) (now : Nat) :
    MemoryStorage × Integration :=
  let i' : Integration :=
    { id := some (genId s.nextId)
      platform := i.platform
      status := i.status
      api_key := i.api_key
      account_id := i.account_id
      last_sync := none
      created_at := some now }
  ({ s with integrations := s.integrations ++ [i'], nextId := s.nextId + 1 }, i')

/-- The three seeded campaigns of `MemoryStorage.__init__`
(storage.py lines 50-84); seed creation instant taken as 0. -/
def seededCampaigns : List Campaign :=
  [⟨some "1", "Summer Sale Campaign", "conversions", "Facebook",
    15420, 892, "456.78", CampaignStatus.active, some 0, none⟩,
   ⟨some "2", "Brand Awareness Push", "awareness", "Google Ads",
    28900, 1245, "789.50", CampaignStatus.active, some 0, none⟩,
   ⟨some "3", "Retargeting Campaign", "conversions", "LinkedIn",
    8750, 425, "234.25", CampaignStatus.paused, some 0, none⟩]

/-- The four seeded integrations of `MemoryStorage.__init__`
(storage.py lines 157-186). -/
def seededIntegrations : List Integration :=
  [⟨some "1", "Facebook", IntegrationStatus.connected, none,
    some "fb_account_123", some 0, some 0⟩,
   ⟨some "2", "Google Ads", IntegrationStatus.connected, none,
    some "ga_account_456", some 0, some 0⟩,
   ⟨some "3", "LinkedIn", IntegrationStatus.disconnected, none, none,
    none, some 0⟩,
   ⟨some "4", "Twitter", IntegrationStatus.error, none, none,
    none, some 0⟩]

/-- The freshly constructed store. -/
def initialStorage : MemoryStorage :=
  ⟨seededCampaigns, seededIntegrations, 0⟩

/-- Identifier freshness invariant: no stored record already carries an id the
uuid supply may still produce. It holds for the seeded store and is preserved
by `create_campaign`, which is what makes every newly assigned id unique. -/
def IdsFresh (s : MemoryStorage) : Prop :=
  (∀ c ∈ s.campaigns, ∀ k, s.nextId ≤ k → c.id ≠ some (genId k)) ∧
  (∀ i ∈ s.integrations, ∀ k, s.nextId ≤ k → i.id ≠ some (genId k))

/-! ## OAuth URL construction (`api/google_analytics.py` lines 15-43) -/

/-- Python truthiness of an optional string: set and non-empty. -/
def pyTruthy (o : Option String) : Bool :=
  match o with
  | none => false
  | some s => !s.isEmpty

/-- The fixed scope value: the two scopes joined by a space (lines 24-27, 32). -/
def oauthScopes : String :=
  "https://www.googleapis.com/auth/analytics.readonly https://www.googleapis.com/auth/userinfo.email"

/-- The ordered parameter list of `get_oauth_url` after the
`if v` truthiness filter of line 42: the fixed seven entries (in dict
insertion order), with `state` appended when truthy, and every entry with an
empty value dropped. -/
def oauthParams (client_id redirect_uri state : Option String) :
    List (String × String) :=
  ([("client_id", client_id.getD ""),
    ("redirect_uri", redirect_uri.getD ""),
    ("scope", oauthScopes),
    ("response_type", "code"),
    ("access_type", "offline"),
    ("prompt", "select_account"),
    ("include_granted_scopes", "true")] ++
   (if pyTruthy state then [("state", state.getD "")] else [])).filter
    (fun kv => !kv.2.isEmpty)

/-- `GoogleAnalyticsService.get_oauth_url` (lines 15-43): raises
`HTTPException` when the configured client id is not truthy, otherwise joins
the filtered parameters into the query string. -/
def get_oauth_url (client_id redirect_uri state : Option String) :
    Except String String :=
  if !pyTruthy client_id then
    Except.error "Google OAuth not configured. Please set up OAuth credentials."
  else
    Except.ok ("https://accounts.google.com/o/oauth2/v2/auth?" ++
      String.intercalate "&"
        ((oauthParams client_id redirect_uri state).map
          (fun kv => kv.1 ++ "=" ++ kv.2)))

/-! ## Helper lemmas: reshaping loop -/

/-- The three running totals of a list of included records. -/
def sumsOf (l : List CampaignEntry) : Nat × Nat × Nat :=
  ((l.map CampaignEntry.sessions).sum,
   (l.map CampaignEntry.users).sum,
   (l.map CampaignEntry.pageviews).sum)

lemma parseDecimalPy_isSome (s : String) (h : noCrashDecimal s = true) :
    ∃ q, parseDecimalPy s = some q := by
  unfold noCrashDecimal at h
  unfold parseDecimalPy pyFloat
  by_cases hd : pyIsDigit (stripDots s) = true
  · simp only [hd, Bool.not_true, Bool.false_or, decide_eq_true_eq] at h
    rw [if_pos hd]
    rcases Nat.le_one_iff_eq_zero_or_eq_one.mp h with h0 | h1
    · simp [h0]
    · simp [h1]
  · rw [if_neg hd]
    exact ⟨0, rfl⟩

lemma rowValues_of_ok (r : GARow) (h : rowOk r = true) :
    rowValues r = some (firstValues r) := by
  unfold rowOk at h
  unfold rowValues firstValues
  match hm : r.metrics with
  | none => rfl
  | some [] => rw [hm] at h; simp at h
  | some (v :: vs) => rfl

lemma processRow_of_ok (r : GARow) (h : rowOk r = true) :
    processRow r = some (rowEntry r) := by
  have hv := rowValues_of_ok r h
  unfold processRow
  rw [hv]
  dsimp only
  unfold rowEntry
  by_cases hinc : includedRow r = true
  · have hth : 3 ≤ r.dimensions.length ∧ 5 ≤ (firstValues r).length := by
      unfold includedRow at hinc
      simp only [Bool.and_eq_true, decide_eq_true_eq] at hinc
      exact hinc
    have hcr : noCrashDecimal ((firstValues r).getD 3 "") = true ∧
        noCrashDecimal ((firstValues r).getD 4 "") = true := by
      unfold rowOk at h
      simp only [Bool.and_eq_true, Bool.or_eq_true, Bool.not_eq_true'] at h
      rcases h.2 with hfalse | hok
      · rw [hinc] at hfalse; cases hfalse
      · exact hok
    obtain ⟨q3, hq3⟩ := parseDecimalPy_isSome _ hcr.1
    obtain ⟨q4, hq4⟩ := parseDecimalPy_isSome _ hcr.2
    rw [if_pos hth, if_pos hinc, hq3, hq4]
    simp
  · have hth : ¬(3 ≤ r.dimensions.length ∧ 5 ≤ (firstValues r).length) := by
      unfold includedRow at hinc
      simp only [Bool.and_eq_true, decide_eq_true_eq] at hinc
      exact hinc
    rw [if_neg hth, if_neg hinc]

lemma processRows_of_ok (rs : List GARow) (h : ∀ r ∈ rs, rowOk r = true) :
    processRows rs = some (rs.filterMap rowEntry, sumsOf (rs.filterMap rowEntry)) := by
  induction rs with
  | nil => rfl
  | cons r rest ih =>
    have hr := h r (by simp)
    have hrest := ih (fun x hx => h x (by simp [hx]))
    unfold processRows
    rw [processRow_of_ok r hr]
    match he : rowEntry r with
    | none => rw [hrest]; simp [List.filterMap_cons, he]
    | some e =>
      rw [hrest]
      simp [List.filterMap_cons, he, sumsOf]

/-! ## Claims C1 and C2: report reshaping -/

/-- C1 (amended). For a response whose reports list is non-empty, provided
every row of the first report survives the loop body (its metrics list, when
present, is non-empty, and when the row qualifies neither decimal metric
string passes the digit check while carrying two or more dots), the reshaping
includes exactly one record per row meeting the 3-dimension/5-metric
threshold — source, medium, name from dimension positions 0-2; sessions,
users, pageviews as digit-only integer parses (else 0); bounce rate and
average duration as dot-stripped digit-check decimal parses (else 0) — rows
below the threshold are excluded, and the totals accumulate sessions, users
and pageviews over exactly the included records. -/
theorem parse_included_rows_characterization
    (resp : AnalyticsResponse) (report : GAReport) (rest : List GAReport)
    (hrep : resp.reports = report :: rest)
    (hok : ∀ r ∈ report.rows, rowOk r = true) :
    parse_analytics_response resp =
      some ⟨report.rows.filterMap rowEntry,
            some (sumsOf (report.rows.filterMap rowEntry))⟩ := by
  unfold parse_analytics_response
  rw [hrep]
  dsimp only
  rw [processRows_of_ok report.rows hok]

/-- Witness for C1 at the spec's own example row. -/
theorem parse_included_rows_characterization_witness :
    parse_analytics_response
        ⟨[⟨[⟨["google", "cpc", "Spring Sale"],
             some [["120", "45", "300", "0.42", "95.5"]]⟩]⟩]⟩ =
      some ⟨[⟨"Spring Sale", "google", "cpc", 120, 45, 300,
             mkRat 21 50, mkRat 191 2⟩], some (120, 45, 300)⟩ :=
  (parse_included_rows_characterization _ _ _ rfl (by decide)).trans (by decide)

/-- Counterexample to C1 as stated: the row qualifies (3 dimensions, 5 metric
values) and its fourth metric string "1.2.3" passes the dot-stripped digit
check, yet the reshaping yields no record at all — `float("1.2.3")` raises,
the exception propagates, and the row is neither included nor defaulted. -/
theorem parse_multidot_metric_counterexample :
    includedRow ⟨["a", "b", "c"], some [["1", "2", "3", "1.2.3", "5"]]⟩ = true ∧
    pyIsDigit (stripDots "1.2.3") = true ∧
    parse_analytics_response
        ⟨[⟨[⟨["a", "b", "c"], some [["1", "2", "3", "1.2.3", "5"]]⟩]⟩]⟩ =
      none := by
  decide

/-- C2 (amended). A response with an empty reports list yields an empty
campaign list and an empty totals map; a response whose first report has zero
rows yields an empty campaign list together with a totals map carrying
explicit zero-valued sessions, users and pageviews fields. -/
theorem parse_empty_response_totals :
    parse_analytics_response ⟨[]⟩ = some ⟨[], none⟩ ∧
    ∀ rest : List GAReport,
      parse_analytics_response ⟨⟨[]⟩ :: rest⟩ = some ⟨[], some (0, 0, 0)⟩ :=
  ⟨rfl, fun _ => rfl⟩

/-- Counterexample to C2 as stated: a response containing one report with zero
result rows produces a totals map with explicit zero fields, not the empty
map. -/
theorem parse_zero_rows_counterexample :
    parse_analytics_response ⟨[⟨[]⟩]⟩ = some ⟨[], some (0, 0, 0)⟩ ∧
    parse_analytics_response ⟨[⟨[]⟩]⟩ ≠ some ⟨[], none⟩ := by
  decide

/-! ## Helper lemmas: storage update scan -/

lemma update_campaign_not_found (l : List Campaign) (cid : String)
    (p : CampaignPatch) (now : Nat) (h : ∀ c ∈ l, c.id ≠ some cid) :
    update_campaign l cid p now =
      (l, Except.error ("Campaign with id " ++ cid ++ " not found")) := by
  induction l with
  | nil => rfl
  | cons a rest ih =>
    have ha : ¬(a.id = some cid) := h a (by simp)
    have hrest := ih (fun c hc => h c (by simp [hc]))
    unfold update_campaign
    rw [if_neg ha, hrest]

lemma update_integration_not_found (l : List Integration) (iid : String)
    (p : IntegrationPatch) (now : Nat) (h : ∀ i ∈ l, i.id ≠ some iid) :
    update_integration l iid p now =
      (l, Except.error ("Integration with id " ++ iid ++ " not found")) := by
  induction l with
  | nil => rfl
  | cons a rest ih =>
    have ha : ¬(a.id = some iid) := h a (by simp)
    have hrest := ih (fun i hi => h i (by simp [hi]))
    unfold update_integration
    rw [if_neg ha, hrest]

lemma update_campaign_found (l : List Campaign) (cid : String)
    (p : CampaignPatch) (now : Nat) (l' : List Campaign) (c' : Campaign)
    (h : update_campaign l cid p now = (l', Except.ok c')) :
    ∃ pre c post,
      l = pre ++ c :: post ∧ (∀ x ∈ pre, x.id ≠ some cid) ∧ c.id = some cid ∧
      c' = { setFields c p with updated_at := some now } ∧
      l' = pre ++ c' :: post := by
  induction l generalizing l' with
  | nil =>
    exact absurd (congrArg Prod.snd h) (by simp [update_campaign])
  | cons a rest ih =>
    by_cases ha : a.id = some cid
    · unfold update_campaign at h
      rw [if_pos ha] at h
      obtain ⟨h1, h2⟩ := Prod.mk.injEq .. ▸ h
      refine ⟨[], a, rest, rfl, by simp, ha, ?_, ?_⟩
      · exact (Except.ok.injEq .. ▸ h2).symm
      · rw [← h1]
        simp [Except.ok.injEq .. ▸ h2]
    · unfold update_campaign at h
      rw [if_neg ha] at h
      obtain ⟨h1, h2⟩ := Prod.mk.injEq .. ▸ h
      have hrec : update_campaign rest cid p now =
          ((update_campaign rest cid p now).1, Except.ok c') := by
        rw [← h2]
      obtain ⟨pre, c, post, hl, hpre, hc, hc', hl'⟩ :=
        ih (update_campaign rest cid p now).1 hrec
      refine ⟨a :: pre, c, post, by rw [hl]; rfl, ?_, hc, hc', ?_⟩
      · intro x hx
        rcases List.mem_cons.mp hx with hxa | hxp
        · rw [hxa]; exact ha
        · exact hpre x hxp
      · rw [← h1, hl']
        rfl

lemma update_integration_found (l : List Integration) (iid : String)
    (p : IntegrationPatch) (now : Nat) (l' : List Integration) (i' : Integration)
    (h : update_integration l iid p now = (l', Except.ok i')) :
    ∃ pre i post,
      l = pre ++ i :: post ∧ (∀ x ∈ pre, x.id ≠ some iid) ∧ i.id = some iid ∧
      i' = (if p.status = some IntegrationStatus.connected then
              { setFieldsI i p with last_sync := some now }
            else setFieldsI i p) ∧
      l' = pre ++ i' :: post := by
  induction l generalizing l' with
  | nil =>
    exact absurd (congrArg Prod.snd h) (by simp [update_integration])
  | cons a rest ih =>
    by_cases ha : a.id = some iid
    · unfold update_integration at h
      rw [if_pos ha] at h
      obtain ⟨h1, h2⟩ := Prod.mk.injEq .. ▸ h
      refine ⟨[], a, rest, rfl, by simp, ha, ?_, ?_⟩
      · exact (Except.ok.injEq .. ▸ h2).symm
      · rw [← h1]
        simp [Except.ok.injEq .. ▸ h2]
    · unfold update_integration at h
      rw [if_neg ha] at h
      obtain ⟨h1, h2⟩ := Prod.mk.injEq .. ▸ h
      have hrec : update_integration rest iid p now =
          ((update_integration rest iid p now).1, Except.ok i') := by
        rw [← h2]
      obtain ⟨pre, i, post, hl, hpre, hi, hi', hl'⟩ :=
        ih (update_integration rest iid p now).1 hrec
      refine ⟨a :: pre, i, post, by rw [hl]; rfl, ?_, hi, hi', ?_⟩
      · intro x hx
        rcases List.mem_cons.mp hx with hxa | hxp
        · rw [hxa]; exact ha
        · exact hpre x hxp
      · rw [← h1, hl']
        rfl

/-! ## Claim C3: update does not re-validate -/

/-- C3 evidence (the claim is right, the code is wrong): patching the seeded
campaign "1" with spend "abc" succeeds and stores the invalid value — the
`setattr` loop of `update_campaign` runs no validation, and the PATCH route
passes a raw dict (the declared `UpdateCampaignRequest` model is unused) — 
while the create-side constraints reject "abc" and "100.555" and accepted the
record's original spend. -/
theorem update_campaign_skips_validation :
    (update_campaign seededCampaigns "1" { spend := some "abc" } 9).2 =
      Except.ok ⟨some "1", "Summer Sale Campaign", "conversions", "Facebook",
        15420, 892, "abc", CampaignStatus.active, some 0, some 9⟩ ∧
    validCampaign ⟨some "1", "Summer Sale Campaign", "conversions", "Facebook",
        15420, 892, "abc", CampaignStatus.active, some 0, some 9⟩ = false ∧
    spendOk "abc" = false ∧ spendOk "100.555" = false ∧
    spendOk "456.78" = true := by
  refine ⟨rfl, by decide, by decide, by decide, by decide⟩

/-! ## Claim C4: update of a missing id fails and changes nothing -/

/-- C4. Updating an identifier matching no stored campaign raises the
not-found error and returns the collection exactly as it was, record for
record; the same holds for the integration collection. -/
theorem update_missing_id_error
    (l : List Campaign) (li : List Integration) (cid iid : String)
    (p : CampaignPatch) (q : IntegrationPatch) (now : Nat)
    (h1 : ∀ c ∈ l, c.id ≠ some cid) (h2 : ∀ i ∈ li, i.id ≠ some iid) :
    update_campaign l cid p now =
      (l, Except.error ("Campaign with id " ++ cid ++ " not found")) ∧
    update_integration li iid q now =
      (li, Except.error ("Integration with id " ++ iid ++ " not found")) :=
  ⟨update_campaign_not_found l cid p now h1,
   update_integration_not_found li iid q now h2⟩

/-- Witness for C4 on the seeded store and the absent identifier "99". -/
theorem update_missing_id_error_witness :
    update_campaign seededCampaigns "99" {} 5 =
      (seededCampaigns, Except.error "Campaign with id 99 not found") ∧
    update_integration seededIntegrations "99" {} 5 =
      (seededIntegrations, Except.error "Integration with id 99 not found") :=
  update_missing_id_error seededCampaigns seededIntegrations "99" "99" {} {} 5
    (by decide) (by decide)

/-! ## Claim C5: patches touch only the patched fields -/

/-- C5. A successful campaign update rewrites exactly the first matching
record: every field whose key is absent from the patch keeps its prior value,
a patched field (impressions shown) takes the patched value, the update
timestamp is set to the instant of the call (hence no earlier than any prior
update instant at or before the call), and all other records are untouched. -/
theorem update_patch_frame (l : List Campaign) (cid : String)
    (p : CampaignPatch) (now : Nat) (l' : List Campaign) (c' : Campaign)
    (h : update_campaign l cid p now = (l', Except.ok c')) :
    ∃ pre c post,
      l = pre ++ c :: post ∧ (∀ x ∈ pre, x.id ≠ some cid) ∧ c.id = some cid ∧
      l' = pre ++ c' :: post ∧
      (p.id = none → c'.id = c.id) ∧
      (p.name = none → c'.name = c.name) ∧
      (p.type = none → c'.type = c.type) ∧
      (p.platform = none → c'.platform = c.platform) ∧
      (p.impressions = none → c'.impressions = c.impressions) ∧
      (∀ v, p.impressions = some v → c'.impressions = v) ∧
      (p.clicks = none → c'.clicks = c.clicks) ∧
      (p.spend = none → c'.spend = c.spend) ∧
      (p.status = none → c'.status = c.status) ∧
      (p.created_at = none → c'.created_at = c.created_at) ∧
      c'.updated_at = some now ∧
      (∀ t, c.updated_at = some t → t ≤ now →
        ∃ t2, c'.updated_at = some t2 ∧ t ≤ t2) := by
  obtain ⟨pre, c, post, hl, hpre, hcid, hc', hl'⟩ :=
    update_campaign_found l cid p now l' c' h
  subst hc'
  refine ⟨pre, c, post, hl, hpre, hcid, hl', ?_, ?_, ?_, ?_, ?_, ?_, ?_, ?_,
    ?_, ?_, rfl, ?_⟩
  · intro hn; simp [setFields, hn]
  · intro hn; simp [setFields, hn]
  · intro hn; simp [setFields, hn]
  · intro hn; simp [setFields, hn]
  · intro hn; simp [setFields, hn]
  · intro v hv; simp [setFields, hv]
  · intro hn; simp [setFields, hn]
  · intro hn; simp [setFields, hn]
  · intro hn; simp [setFields, hn]
  · intro hn; simp [setFields, hn]
  · intro t _ hle; exact ⟨now, rfl, hle⟩

/-- Witness for C5: patching impressions to 500 on a one-record store. -/
theorem update_patch_frame_witness :
    ∃ pre c post,
      [(⟨some "1", "A", "conv", "FB", (1 : Int), (2 : Int), "3.00",
         CampaignStatus.active, some 0, some 1⟩ : Campaign)] =
        pre ++ c :: post ∧
      (∀ x ∈ pre, x.id ≠ some "1") ∧ c.id = some "1" ∧
      [(⟨some "1", "A", "conv", "FB", (500 : Int), (2 : Int), "3.00",
         CampaignStatus.active, some 0, some 7⟩ : Campaign)] =
        pre ++ (⟨some "1", "A", "conv", "FB", (500 : Int), (2 : Int), "3.00",
         CampaignStatus.active, some 0, some 7⟩ : Campaign) :: post ∧
      (({ impressions := some 500 } : CampaignPatch).id = none →
        (⟨some "1", "A", "conv", "FB", (500 : Int), (2 : Int), "3.00",
         CampaignStatus.active, some 0, some 7⟩ : Campaign).id = c.id) ∧
      (({ impressions := some 500 } : CampaignPatch).name = none →
        (⟨some "1", "A", "conv", "FB", (500 : Int), (2 : Int), "3.00",
         CampaignStatus.active, some 0, some 7⟩ : Campaign).name = c.name) ∧
      (({ impressions := some 500 } : CampaignPatch).type = none →
        (⟨some "1", "A", "conv", "FB", (500 : Int), (2 : Int), "3.00",
         CampaignStatus.active, some 0, some 7⟩ : Campaign).type = c.type) ∧
      (({ impressions := some 500 } : CampaignPatch).platform = none →
        (⟨some "1", "A", "conv", "FB", (500 : Int), (2 : Int), "3.00",
         CampaignStatus.active, some 0, some 7⟩ : Campaign).platform = c.platform) ∧
      (({ impressions := some 500 } : CampaignPatch).impressions = none →
        (⟨some "1", "A", "conv", "FB", (500 : Int), (2 : Int), "3.00",
         CampaignStatus.active, some 0, some 7⟩ : Campaign).impressions = c.impressions) ∧
      (∀ v, ({ impressions := some 500 } : CampaignPatch).impressions = some v →
        (⟨some "1", "A", "conv", "FB", (500 : Int), (2 : Int), "3.00",
         CampaignStatus.active, some 0, some 7⟩ : Campaign).impressions = v) ∧
      (({ impressions := some 500 } : CampaignPatch).clicks = none →
        (⟨some "1", "A", "conv", "FB", (500 : Int), (2 : Int), "3.00",
         CampaignStatus.active, some 0, some 7⟩ : Campaign).clicks = c.clicks) ∧
      (({ impressions := some 500 } : CampaignPatch).spend = none →
        (⟨some "1", "A", "conv", "FB", (500 : Int), (2 : Int), "3.00",
         CampaignStatus.active, some 0, some 7⟩ : Campaign).spend = c.spend) ∧
      (({ impressions := some 500 } : CampaignPatch).status = none →
        (⟨some "1", "A", "conv", "FB", (500 : Int), (2 : Int), "3.00",
         CampaignStatus.active, some 0, some 7⟩ : Campaign).status = c.status) ∧
      (({ impressions := some 500 } : CampaignPatch).created_at = none →
        (⟨some "1", "A", "conv", "FB", (500 : Int), (2 : Int), "3.00",
         CampaignStatus.active, some 0, some 7⟩ : Campaign).created_at = c.created_at) ∧
      (⟨some "1", "A", "conv", "FB", (500 : Int), (2 : Int), "3.00",
         CampaignStatus.active, some 0, some 7⟩ : Campaign).updated_at = some 7 ∧
      (∀ t, c.updated_at = some t → t ≤ 7 →
        ∃ t2, (⟨some "1", "A", "conv", "FB", (500 : Int), (2 : Int), "3.00",
         CampaignStatus.active, some 0, some 7⟩ : Campaign).updated_at = some t2 ∧
          t ≤ t2) :=
  update_patch_frame _ "1" { impressions := some 500 } 7 _ _ rfl

/-! ## Claim C6: connecting an integration stamps last_sync -/

/-- C6. On a successful integration update, a patch carrying
status = connected leaves the record's `last_sync` equal to the instant of
the call (so it is non-null and no older than the call); a patch not carrying
status = connected leaves `last_sync` to the generic field loop: the patched
value when the key is present, the prior value otherwise — no stamp. -/
theorem update_connected_stamps (l : List Integration) (iid : String)
    (p : IntegrationPatch) (now : Nat) (l' : List Integration) (i' : Integration)
    (h : update_integration l iid p now = (l', Except.ok i')) :
    ∃ pre i post,
      l = pre ++ i :: post ∧ (∀ x ∈ pre, x.id ≠ some iid) ∧ i.id = some iid ∧
      l' = pre ++ i' :: post ∧
      (p.status = some IntegrationStatus.connected →
        i'.last_sync = some now ∧ now ≤ now) ∧
      (p.status ≠ some IntegrationStatus.connected →
        i'.last_sync = p.last_sync.getD i.last_sync) := by
  obtain ⟨pre, i, post, hl, hpre, hiid, hi', hl'⟩ :=
    update_integration_found l iid p now l' i' h
  subst hi'
  refine ⟨pre, i, post, hl, hpre, hiid, hl', ?_, ?_⟩
  · intro hs
    rw [if_pos hs]
    exact ⟨rfl, le_refl now⟩
  · intro hs
    rw [if_neg hs]
    rfl

/-- Witness for C6: connecting the one-record store's integration "1". -/
theorem update_connected_stamps_witness :
    ∃ pre i post,
      [(⟨some "1", "LinkedIn", IntegrationStatus.disconnected, none, none,
         none, some 0⟩ : Integration)] = pre ++ i :: post ∧
      (∀ x ∈ pre, x.id ≠ some "1") ∧ i.id = some "1" ∧
      [(⟨some "1", "LinkedIn", IntegrationStatus.connected, none, none,
         some 9, some 0⟩ : Integration)] =
        pre ++ (⟨some "1", "LinkedIn", IntegrationStatus.connected, none, none,
         some 9, some 0⟩ : Integration) :: post ∧
      (({ status := some IntegrationStatus.connected } : IntegrationPatch).status =
          some IntegrationStatus.connected →
        (⟨some "1", "LinkedIn", IntegrationStatus.connected, none, none,
         some 9, some 0⟩ : Integration).last_sync = some 9 ∧ 9 ≤ 9) ∧
      (({ status := some IntegrationStatus.connected } : IntegrationPatch).status ≠
          some IntegrationStatus.connected →
        (⟨some "1", "LinkedIn", IntegrationStatus.connected, none, none,
         some 9, some 0⟩ : Integration).last_sync =
          ({ status := some IntegrationStatus.connected } : IntegrationPatch).last_sync.getD
            i.last_sync) :=
  update_connected_stamps _ "1" { status := some IntegrationStatus.connected }
    9 _ _ rfl

/-! ## Claim C7: delete returns whether it removed the first match -/

/-- C7. Deletion reports whether some record carries the identifier, and the
resulting collection is the original with the first matching record erased
(`List.eraseP` erases exactly the first element satisfying the predicate and
keeps every other element in order; when nothing matches it is the identity),
for campaigns and integrations alike. -/
theorem delete_removes_first_match (l : List Campaign) (li : List Integration)
    (cid iid : String) :
    delete_campaign l cid =
      (l.any (fun c => decide (c.id = some cid)),
       l.eraseP (fun c => decide (c.id = some cid))) ∧
    delete_integration li iid =
      (li.any (fun i => decide (i.id = some iid)),
       li.eraseP (fun i => decide (i.id = some iid))) := by
  constructor
  · induction l with
    | nil => rfl
    | cons a rest ih =>
      by_cases ha : a.id = some cid
      · unfold delete_campaign
        rw [if_pos ha]
        simp [List.eraseP_cons, List.any_cons, ha]
      · unfold delete_campaign
        rw [if_neg ha, ih]
        simp [List.eraseP_cons, List.any_cons, ha]
  · induction li with
    | nil => rfl
    | cons a rest ih =>
      by_cases ha : a.id = some iid
      · unfold delete_integration
        rw [if_pos ha]
        simp [List.eraseP_cons, List.any_cons, ha]
      · unfold delete_integration
        rw [if_neg ha, ih]
        simp [List.eraseP_cons, List.any_cons, ha]

/-! ## Claim C8: create assigns a fresh id and appends -/

lemma genId_length (n : Nat) : (genId n).length = 5 + n := by
  simp [genId, String.length_append]
  rfl

lemma genId_ne_of_ne {m n : Nat} (hmn : m ≠ n) : genId m ≠ genId n := by
  intro he
  have := congrArg String.length he
  rw [genId_length, genId_length] at this
  omega

lemma ne_genId_of_short (t : String) (ht : t.length < 5) (k : Nat) :
    t ≠ genId k := by
  intro he
  rw [he, genId_length] at ht
  omega

lemma seed_id_ne (t : String) (ht : t.length < 5) (k : Nat) :
    some t ≠ some (genId k) := by
  intro he
  exact ne_genId_of_short t ht k (Option.some.injEq .. ▸ he)

lemma initialStorage_fresh : IdsFresh initialStorage := by
  constructor
  · intro c hc k _
    fin_cases hc <;> exact seed_id_ne _ (by decide) k
  · intro i hi k _
    fin_cases hi <;> exact seed_id_ne _ (by decide) k

/-- C8. Under the freshness invariant (true of the seeded store and preserved
by every create), creating a campaign returns a record whose id differs from
the id of every record already stored, carries the creation instant, and is
appended as the last element of a subsequent `get_campaigns`, the prior
records unchanged and in their prior order; the invariant holds again
afterwards, so the ids of successive creates also never collide. -/
theorem create_campaign_fresh_append (s : MemoryStorage) (c : Campaign)
    (now : Nat) (h : IdsFresh s) :
    (∀ old ∈ get_campaigns s, old.id ≠ (create_campaign s c now).2.id) ∧
    (create_campaign s c now).2.id = some (genId s.nextId) ∧
    (create_campaign s c now).2.created_at = some now ∧
    get_campaigns (create_campaign s c now).1 =
      get_campaigns s ++ [(create_campaign s c now).2] ∧
    IdsFresh (create_campaign s c now).1 := by
  refine ⟨?_, rfl, rfl, rfl, ?_, ?_⟩
  · intro old hold heq
    exact h.1 old hold s.nextId (le_refl _) heq
  · intro x hx k hk
    have hk' : s.nextId + 1 ≤ k := hk
    rcases List.mem_append.mp hx with hxs | hxn
    · exact h.1 x hxs k (by omega)
    · have hx1 : x = (create_campaign s c now).2 := by
        simpa using hxn
      rw [hx1]
      intro he
      simp only [create_campaign, Option.some.injEq] at he
      exact genId_ne_of_ne (by omega : s.nextId ≠ k) he
  · intro i hi k hk
    have hk' : s.nextId + 1 ≤ k := hk
    exact h.2 i hi k (by omega)

/-- Witness for C8: the first create on the seeded store. -/
theorem create_campaign_fresh_append_witness :
    (∀ old ∈ get_campaigns initialStorage,
      old.id ≠ (create_campaign initialStorage
        ⟨none, "New Campaign", "conversions", "X", 0, 0, "10.00",
         CampaignStatus.active, none, none⟩ 5).2.id) ∧
    (create_campaign initialStorage
        ⟨none, "New Campaign", "conversions", "X", 0, 0, "10.00",
         CampaignStatus.active, none, none⟩ 5).2.id = some (genId 0) ∧
    (create_campaign initialStorage
        ⟨none, "New Campaign", "conversions", "X", 0, 0, "10.00",
         CampaignStatus.active, none, none⟩ 5).2.created_at = some 5 ∧
    get_campaigns (create_campaign initialStorage
        ⟨none, "New Campaign", "conversions", "X", 0, 0, "10.00",
         CampaignStatus.active, none, none⟩ 5).1 =
      get_campaigns initialStorage ++
        [(create_campaign initialStorage
          ⟨none, "New Campaign", "conversions", "X", 0, 0, "10.00",
           CampaignStatus.active, none, none⟩ 5).2] ∧
    IdsFresh (create_campaign initialStorage
        ⟨none, "New Campaign", "conversions", "X", 0, 0, "10.00",
         CampaignStatus.active, none, none⟩ 5).1 :=
  create_campaign_fresh_append initialStorage
    ⟨none, "New Campaign", "conversions", "X", 0, 0, "10.00",
     CampaignStatus.active, none, none⟩ 5 initialStorage_fresh

/-! ## Claim C10: create_integration never stores a last_sync -/

/-- C10. Whatever integration the caller supplies — any `last_sync`, any
status, `connected` included — the stored and returned record has
`last_sync = none`: the constructor call of `create_integration` never
forwards `last_sync`, and no stamping happens at creation. -/
theorem create_integration_no_last_sync (s : MemoryStorage) (i : Integration)
    (now : Nat) :
    (create_integration s i now).2.last_sync = none ∧
    (create_integration s i now).2.status = i.status ∧
    get_integrations (create_integration s i now).1 =
      get_integrations s ++ [(create_integration s i now).2] :=
  ⟨rfl, rfl, rfl⟩

/-! ## Claim C9: authorization URL construction -/

/-- C9 (amended). URL generation fails exactly when the configured client
identifier is missing or empty; otherwise the returned URL is the base
endpoint followed by the "&"-joined filtered parameters, among whose pieces
`access_type=offline` and `prompt=select_account` always occur, the scope
parameter carries the fixed two-scope set, and a state parameter occurs
exactly when the provided state token is non-empty. -/
theorem get_oauth_url_spec (cid ru st : Option String) :
    ((∃ e, get_oauth_url cid ru st = Except.error e) ↔ pyTruthy cid = false) ∧
    (pyTruthy cid = true →
      get_oauth_url cid ru st =
        Except.ok ("https://accounts.google.com/o/oauth2/v2/auth?" ++
          String.intercalate "&"
            ((oauthParams cid ru st).map (fun kv => kv.1 ++ "=" ++ kv.2))) ∧
      "access_type=offline" ∈
        (oauthParams cid ru st).map (fun kv => kv.1 ++ "=" ++ kv.2) ∧
      "prompt=select_account" ∈
        (oauthParams cid ru st).map (fun kv => kv.1 ++ "=" ++ kv.2) ∧
      ("scope", oauthScopes) ∈ oauthParams cid ru st ∧
      (("state" ∈ (oauthParams cid ru st).map Prod.fst) ↔
        pyTruthy st = true)) := by
  constructor
  · cases hc : pyTruthy cid <;> simp [get_oauth_url, hc]
  · intro hc
    refine ⟨by simp [get_oauth_url, hc], ?_, ?_, ?_, ?_⟩
    · refine List.mem_map.mpr ⟨("access_type", "offline"), ?_, rfl⟩
      refine List.mem_filter.mpr ⟨List.mem_append_left _ (by simp), by decide⟩
    · refine List.mem_map.mpr ⟨("prompt", "select_account"), ?_, rfl⟩
      refine List.mem_filter.mpr ⟨List.mem_append_left _ (by simp), by decide⟩
    · refine List.mem_filter.mpr ⟨List.mem_append_left _ (by simp), by decide⟩
    · constructor
      · intro hmem
        rcases List.mem_map.mp hmem with ⟨kv, hkv, hfst⟩
        have hkv2 := List.mem_of_mem_filter hkv
        by_contra hst
        have hst2 : pyTruthy st = false := by
          revert hst
          cases pyTruthy st <;> simp
        rw [hst2] at hkv2
        simp only [if_neg Bool.false_ne_true, List.append_nil] at hkv2
        fin_cases hkv2 <;> simp_all
      · intro hst
        refine List.mem_map.mpr ⟨("state", st.getD ""), ?_, rfl⟩
        refine List.mem_filter.mpr ⟨List.mem_append_right _ (by simp [hst]), ?_⟩
        cases st with
        | none => simp [pyTruthy] at hst
        | some s =>
          simp only [pyTruthy] at hst
          simpa using hst

/-- Witness for C9 with client id, redirect and state all configured. -/
theorem get_oauth_url_spec_witness :
    get_oauth_url (some "c") (some "http://r") (some "tok") =
      Except.ok ("https://accounts.google.com/o/oauth2/v2/auth?" ++
        String.intercalate "&"
          ((oauthParams (some "c") (some "http://r") (some "tok")).map
            (fun kv => kv.1 ++ "=" ++ kv.2))) ∧
    "access_type=offline" ∈
      (oauthParams (some "c") (some "http://r") (some "tok")).map
        (fun kv => kv.1 ++ "=" ++ kv.2) ∧
    "prompt=select_account" ∈
      (oauthParams (some "c") (some "http://r") (some "tok")).map
        (fun kv => kv.1 ++ "=" ++ kv.2) ∧
    ("scope", oauthScopes) ∈ oauthParams (some "c") (some "http://r") (some "tok") ∧
    (("state" ∈ (oauthParams (some "c") (some "http://r") (some "tok")).map
        Prod.fst) ↔ pyTruthy (some "tok") = true) :=
  (get_oauth_url_spec (some "c") (some "http://r") (some "tok")).2 (by decide)

/-- Counterexample to C9 as stated: with a client identifier configured and
the empty string provided as state token, the generated parameters carry no
state entry — the `if state` truthiness test drops it, so "contains the state
parameter exactly when a state token was provided" fails at state = "". -/
theorem oauth_empty_state_counterexample :
    (some "" : Option String) ≠ none ∧
    pyTruthy (some "") = false ∧
    (∃ url, get_oauth_url (some "cid") (some "http://r") (some "") =
      Except.ok url) ∧
    "state" ∉ (oauthParams (some "cid") (some "http://r") (some "")).map
      Prod.fst := by
  refine ⟨by decide, by decide, ⟨_, rfl⟩, by decide⟩
